import Mathlib

/-!
Shallow embedding of the core of the bluetooth-classic library
(github.com/bluetuith-org/bluetooth-classic): the concurrent session store
(api/helpers/sessionstore/sessionstore.go), the shim transport correlation
engine (shim/session.go, shim/obex.go), the event bus (api/eventbus/emitter.go,
api/bluetooth/events.go), and the authorization orchestration paths
(shim/internal/events auth events, linux/obex agent).

Go maps (puzpuzpuz/xsync.MapOf) are embedded as association lists with
replace-on-store semantics; Go channels as abstract records tracking nil-ness
and closed-ness; blocking calls (sync.WaitGroup.Wait) as guard functions
returning Option, where `none` means the call cannot return in that state.
-/

/-- Association-list lookup, embedding `Map.Load` of an xsync map. -/
def mapLoad {κ α : Type} [DecidableEq κ] (k : κ) : List (κ × α) → Option α
  | [] => none
  | p :: rest => if p.1 = k then some p.2 else mapLoad k rest

/-- Association-list deletion, embedding `Map.Delete` of an xsync map. -/
def mapDelete {κ α : Type} [DecidableEq κ] (k : κ) (m : List (κ × α)) : List (κ × α) :=
  m.filter (fun p => decide (p.1 ≠ k))

/-- Association-list keyed insertion, embedding `Map.Store` of an xsync map
(last-writer-wins upsert by key). -/
def mapStore {κ α : Type} [DecidableEq κ] (k : κ) (v : α) (m : List (κ × α)) : List (κ × α) :=
  (k, v) :: mapDelete k m

theorem mapLoad_delete_self {κ α : Type} [DecidableEq κ] (k : κ) (m : List (κ × α)) :
    mapLoad k (mapDelete k m) = none := by
  induction m with
  | nil => rfl
  | cons p rest ih =>
    by_cases h : p.1 = k
    · simp [mapDelete, h] at ih ⊢
      exact ih
    · simp [mapDelete, h] at ih ⊢
      simp [mapLoad, h]
      exact ih

theorem mapLoad_delete_other {κ α : Type} [DecidableEq κ] {k k' : κ} (m : List (κ × α))
    (h : k' ≠ k) : mapLoad k' (mapDelete k m) = mapLoad k' m := by
  induction m with
  | nil => rfl
  | cons p rest ih =>
    by_cases hp : p.1 = k
    · have hpk' : ¬p.1 = k' := by
        rw [hp]
        exact Ne.symm h
      simp [mapDelete, hp] at ih ⊢
      rw [ih]
      simp [mapLoad, hpk']
    · simp [mapDelete, hp] at ih ⊢
      by_cases hk' : p.1 = k'
      · simp [mapLoad, hk']
      · simp [mapLoad, hk']
        exact ih

theorem mapLoad_store_self {κ α : Type} [DecidableEq κ] (k : κ) (v : α) (m : List (κ × α)) :
    mapLoad k (mapStore k v m) = some v := by
  simp [mapStore, mapLoad]

theorem mapLoad_store_other {κ α : Type} [DecidableEq κ] {k k' : κ} (v : α) (m : List (κ × α))
    (h : k' ≠ k) : mapLoad k' (mapStore k v m) = mapLoad k' m := by
  have hkk : ¬k = k' := Ne.symm h
  simp [mapStore, mapLoad, hkk]
  exact mapLoad_delete_other m h

theorem mapLoad_none_of_all_ne {κ α : Type} [DecidableEq κ] {k : κ} {m : List (κ × α)}
    (h : ∀ p ∈ m, p.1 ≠ k) : mapLoad k m = none := by
  induction m with
  | nil => rfl
  | cons p rest ih =>
    have hp : p.1 ≠ k := h p (List.mem_cons_self p rest)
    simp [mapLoad, hp]
    exact ih fun q hq => h q (List.mem_cons_of_mem p hq)

theorem mem_keys_of_mapLoad_some {κ α : Type} [DecidableEq κ] {k : κ} {m : List (κ × α)} {v : α}
    (h : mapLoad k m = some v) : k ∈ m.map Prod.fst := by
  induction m with
  | nil => simp [mapLoad] at h
  | cons p rest ih =>
    by_cases hp : p.1 = k
    · simp [hp.symm]
    · simp [mapLoad, hp] at h
      simp [ih h]

/-! ## Data model

The `MacAddress`, adapter and device record types of api/bluetooth are not part
of the extracted sources beyond their use sites, so their payload fields are
modelled minimally; the claims only depend on the address keys, the
owning-adapter relation and the event-data sub-records. -/

/-- A Bluetooth MAC address. -/
abbrev MacAddress := String

/-- The typed errors of api/errorkinds used by the embedded code paths. -/
inductive GoError where
  | adapterNotFound
  | deviceNotFound
  | sessionNotExist
  | methodCall
  | notSupported
  | generic (msg : String)
  deriving DecidableEq, Repr

/-- Modelled from the spec: the mutable event-data sub-record of an adapter
record (the same shape published in adapter update events). -/
structure AdapterEventData where
  address : MacAddress := ""
  powered : Bool := false
  discoverable : Bool := false
  deriving DecidableEq, Repr

/-- Modelled from the spec: an address-keyed adapter record holding static
identity fields plus the `AdapterEventData` sub-record. -/
structure AdapterData where
  address : MacAddress := ""
  name : String := ""
  adapterEventData : AdapterEventData := {}
  deriving DecidableEq, Repr

/-- Modelled from the spec: the mutable event-data sub-record of a device
record (the same shape published in device update events). -/
structure DeviceEventData where
  address : MacAddress := ""
  connected : Bool := false
  deriving DecidableEq, Repr

/-- Modelled from the spec: an address-keyed device record; devices reference
their owning adapter via the `associatedAdapter` field. -/
structure DeviceData where
  address : MacAddress := ""
  associatedAdapter : MacAddress := ""
  name : String := ""
  deviceEventData : DeviceEventData := {}
  deriving DecidableEq, Repr

/-! ## Session store (api/helpers/sessionstore/sessionstore.go)

`init : sync.WaitGroup` is embedded as a natural-number counter `initCount`
(`Add(1)` increments, `Done` decrements and panics when the counter would go
negative, `Wait` returns only when the counter is zero), and
`waiting : atomic.Bool` as the `waiting` flag. Operations that begin with
`s.init.Wait()` are guard functions returning `none` while the counter is
positive (the call does not return in that state). -/

structure SessionStore where
  adapters : List (MacAddress × AdapterData)
  devices : List (MacAddress × DeviceData)
  initCount : Nat
  waiting : Bool
  deriving Repr

/-- `NewSessionStore` returns an empty store with the barrier disarmed. -/
def NewSessionStore : SessionStore :=
  { adapters := [], devices := [], initCount := 0, waiting := false }

/-- `(*SessionStore).WaitInitialize`: if already waiting this is a no-op;
otherwise increment the wait-group counter and set the waiting flag. -/
def SessionStore.WaitInitialize (s : SessionStore) : SessionStore :=
  if s.waiting then s
  else { s with initCount := s.initCount + 1, waiting := true }

/-- `(*SessionStore).DoneInitialize`: `s.init.Done()` followed by clearing the
waiting flag. `sync.WaitGroup.Done` on a zero counter drives it negative and
panics, which is modelled as `none`. -/
def SessionStore.DoneInitialize (s : SessionStore) : Option SessionStore :=
  match s.initCount with
  | 0 => none
  | n + 1 => some { s with initCount := n, waiting := false }

/-- `(*SessionStore).Adapters`: waits on the barrier, then snapshots every
adapter value. -/
def SessionStore.Adapters (s : SessionStore) : Option (List AdapterData) :=
  if 0 < s.initCount then none
  else some (s.adapters.map Prod.snd)

/-- `(*SessionStore).Adapter`: waits on the barrier, then point lookup. -/
def SessionStore.Adapter (s : SessionStore) (adapterAddress : MacAddress) :
    Option (Except GoError AdapterData) :=
  if 0 < s.initCount then none
  else some (match mapLoad adapterAddress s.adapters with
    | some adapter => .ok adapter
    | none => .error .adapterNotFound)

/-- `(*SessionStore).AdapterDevices`: waits on the barrier; fails when the
adapter key is absent, otherwise filters the device values by the
owning-adapter relation. -/
def SessionStore.AdapterDevices (s : SessionStore) (adapterAddress : MacAddress) :
    Option (Except GoError (List DeviceData)) :=
  if 0 < s.initCount then none
  else some (match mapLoad adapterAddress s.adapters with
    | none => .error .adapterNotFound
    | some _ =>
        .ok ((s.devices.map Prod.snd).filter
          (fun d => decide (d.associatedAdapter = adapterAddress))))

/-- `(*SessionStore).AddAdapter`: keyed upsert; never consults the barrier. -/
def SessionStore.AddAdapter (s : SessionStore) (adapter : AdapterData) : SessionStore :=
  { s with adapters := mapStore adapter.address adapter s.adapters }

/-- `(*SessionStore).AddAdapters`: bulk keyed upsert; never consults the barrier. -/
def SessionStore.AddAdapters (s : SessionStore) (adapters : List AdapterData) : SessionStore :=
  adapters.foldl SessionStore.AddAdapter s

/-- `(*SessionStore).RemoveAdapter`: keyed delete. -/
def SessionStore.RemoveAdapter (s : SessionStore) (adapterAddress : MacAddress) : SessionStore :=
  { s with adapters := mapDelete adapterAddress s.adapters }

/-- `(*SessionStore).UpdateAdapter`: waits on the barrier, loads the record,
applies the merge function, stores the result only on success, and returns the
event-data sub-record (zero-valued together with an error otherwise). -/
def SessionStore.UpdateAdapter (s : SessionStore) (adapterAddress : MacAddress)
    (mergefn : AdapterData → Except GoError AdapterData) :
    Option (SessionStore × AdapterEventData × Option GoError) :=
  if 0 < s.initCount then none
  else some (match mapLoad adapterAddress s.adapters with
    | none => (s, {}, some .adapterNotFound)
    | some adapter =>
      match mergefn adapter with
      | .error e => (s, {}, some e)
      | .ok merged =>
          ({ s with adapters := mapStore adapterAddress merged s.adapters },
           merged.adapterEventData, none))

/-- `(*SessionStore).Device`: waits on the barrier, then point lookup. -/
def SessionStore.Device (s : SessionStore) (deviceAddress : MacAddress) :
    Option (Except GoError DeviceData) :=
  if 0 < s.initCount then none
  else some (match mapLoad deviceAddress s.devices with
    | some device => .ok device
    | none => .error .deviceNotFound)

/-- `(*SessionStore).AddDevice`: keyed upsert; never consults the barrier. -/
def SessionStore.AddDevice (s : SessionStore) (device : DeviceData) : SessionStore :=
  { s with devices := mapStore device.address device s.devices }

/-- `(*SessionStore).AddDevices`: bulk keyed upsert; never consults the barrier. -/
def SessionStore.AddDevices (s : SessionStore) (devices : List DeviceData) : SessionStore :=
  devices.foldl SessionStore.AddDevice s

/-- `(*SessionStore).RemoveDevice`: keyed delete. -/
def SessionStore.RemoveDevice (s : SessionStore) (deviceAddress : MacAddress) : SessionStore :=
  { s with devices := mapDelete deviceAddress s.devices }

/-- `(*SessionStore).UpdateDevice`: waits on the barrier, loads the record,
applies the merge function, stores the result only on success, and returns the
event-data sub-record (zero-valued together with an error otherwise). -/
def SessionStore.UpdateDevice (s : SessionStore) (deviceAddress : MacAddress)
    (mergefn : DeviceData → Except GoError DeviceData) :
    Option (SessionStore × DeviceEventData × Option GoError) :=
  if 0 < s.initCount then none
  else some (match mapLoad deviceAddress s.devices with
    | none => (s, {}, some .deviceNotFound)
    | some device =>
      match mergefn device with
      | .error e => (s, {}, some e)
      | .ok merged =>
          ({ s with devices := mapStore deviceAddress merged s.devices },
           merged.deviceEventData, none))

/-! ## Shim transport correlation engine (shim/session.go, shim/obex.go)

The connection, channels and goroutines are embedded as explicit state: the
pending-request table `requestMap` is an association list from request IDs to
channel tokens, the outbound connection is the list of frames written, and one
iteration of the listener loop is a step function over one scanned line.
`commands.CommandResponse` and the command constructors of
shim/internal/commands are not under src/ beyond their option tokens; the
response record is modelled from the spec as a reply tagged with a request ID
and a payload. -/

/-- Modelled from the spec: a correlated reply frame carrying the original
request ID, a status and a payload. -/
structure CommandResponse where
  requestId : Int := 0
  status : String := ""
  data : String := ""
  deriving DecidableEq, Repr

/-- `events.ServerEvent` (shim/internal/events/event.go): a raw unsolicited
event frame tagged with a positive event topic ID. -/
structure ServerEvent where
  eventId : Nat := 0
  eventAction : String := ""
  event : String := ""
  deriving DecidableEq, Repr

/-- The anonymous struct decoded per line in `ShimSession.listen`: an embedded
`commands.CommandResponse` and an embedded `events.ServerEvent`, zero-valued
before decoding. -/
structure ListenerMessage where
  commandResponse : CommandResponse := {}
  serverEvent : ServerEvent := {}
  deriving DecidableEq, Repr

/-- The state of a `ShimSession` visible to the executor and listener:
the closed flag, the xsync request-ID counter, the pending-request table
(request ID to reply-channel token) and the frames written to the socket. -/
structure ShimState where
  sessionClosed : Bool
  idCounter : Nat
  requestMap : List (Int × Nat)
  written : List (List String × Int)
  featureSendFile : Bool
  deriving Repr

/-- `(*ShimSession).executor`: fails immediately with the session-not-exist
error when the session is closed; otherwise increments the request-ID counter,
registers a fresh reply channel under the new ID, and writes the framed
command (the parameter tokens plus the request ID) followed by a newline. The
fresh channel is identified by its request ID. -/
def ShimSession.executor (st : ShimState) (params : List String) :
    ShimState × Except GoError Nat :=
  if st.sessionClosed then (st, .error .sessionNotExist)
  else
    let newId := st.idCounter + 1
    let replyChan := newId
    ({ st with
        idCounter := newId,
        requestMap := mapStore (newId : Int) replyChan st.requestMap,
        written := st.written ++ [(params, (newId : Int))] },
     .ok replyChan)

/-- `(*obexFileTransfer).check` (shim/obex.go): session-not-exist when the
session is absent or closed, not-supported when the send-file feature is
absent, otherwise no error. -/
def obexFileTransfer.check (st : ShimState) : Option GoError :=
  if st.sessionClosed then some .sessionNotExist
  else if !st.featureSendFile then some .notSupported
  else none

/-- One line produced by the connection scanner: an optional scanner error and
the decode outcome of the line's bytes (serde.UnmarshalJson is not under src/;
a failed decode is modelled as leaving the freshly zero-initialized response
struct unchanged). -/
structure ScannedLine where
  scanErr : Option String
  decoded : Except String ListenerMessage
  deriving Repr

/-- The observable effects of one iteration of the listener loop body. -/
structure ListenStepResult where
  publishedErrors : List String
  dispatched : List ServerEvent
  delivered : List (Nat × CommandResponse)
  stopped : Bool
  requestMap : List (Int × Nat)
  deriving Repr

/-- One iteration of the inner loop of `(*ShimSession).listen` (lines 268-292):
a scanner error publishes an error event and stops the session
(`handleListenerError(err, true)`); a decode failure publishes an error event
without stopping; a frame with a positive event ID is dispatched as an event;
otherwise the frame is matched against the pending-request table by request ID
with `LoadAndDelete` and delivered only when an entry exists. -/
def ShimSession.listenStep (m : List (Int × Nat)) (line : ScannedLine) : ListenStepResult :=
  match line.scanErr with
  | some e => { publishedErrors := [e], dispatched := [], delivered := [],
                stopped := true, requestMap := m }
  | none =>
    let decodedPair : ListenerMessage × List String :=
      match line.decoded with
      | .error e => ({}, [e])
      | .ok r => (r, [])
    let response := decodedPair.1
    let errs := decodedPair.2
    if response.serverEvent.eventId > 0 then
      { publishedErrors := errs, dispatched := [response.serverEvent], delivered := [],
        stopped := false, requestMap := m }
    else
      match mapLoad response.commandResponse.requestId m with
      | some replyChan =>
          { publishedErrors := errs, dispatched := [],
            delivered := [(replyChan, response.commandResponse)],
            stopped := false,
            requestMap := mapDelete response.commandResponse.requestId m }
      | none =>
          { publishedErrors := errs, dispatched := [], delivered := [],
            stopped := false, requestMap := m }

/-- The reply-matching trace of the listener: processes a sequence of reply
frames against the pending-request table, recording for each delivery the
request ID and the response delivered to the reply channel registered under
that ID. -/
def ShimSession.processReplies (m : List (Int × Nat)) :
    List CommandResponse → List (Int × Nat) × List (Int × Nat × CommandResponse)
  | [] => (m, [])
  | r :: rs =>
    match mapLoad r.requestId m with
    | some replyChan =>
        let rest := ShimSession.processReplies (mapDelete r.requestId m) rs
        (rest.1, (r.requestId, replyChan, r) :: rest.2)
    | none => ShimSession.processReplies m rs

/-! ## Event bus (api/eventbus/emitter.go, api/bluetooth/events.go)

Go channels are embedded as records tracking nil-ness and closed-ness; a
publish returns the list of deliveries it performed. `eventbus.SubscriberID`
is referenced (fields `C`, `active`, `unsub`; methods `IsActive`,
`Unsubscribe`) but its own file is not under src/, so the accessor is modelled
from the spec. -/

/-- A Go channel, abstracted to the observations the claims need. -/
structure GoChan where
  isNil : Bool
  closed : Bool
  deriving DecidableEq, Repr

/-- `eventbus.SubscriberID`: a subscription handle holding a channel and an
active flag (zero-valued `false` unless set by the default handler). -/
structure SubscriberID where
  c : GoChan
  active : Bool
  deriving DecidableEq, Repr

/-- Modelled from the spec: `(SubscriberID).IsActive` reports whether the
handle is subscribable (its file is not under src/); the default handler sets
`active` to true and the nil handler leaves it zero-valued. -/
def SubscriberID.IsActive (s : SubscriberID) : Bool := s.active

/-- An event handler, as the pair of observable behaviors the claims need:
what a publish delivers, and the handle a subscribe returns. -/
structure EventHandlerModel where
  publishDeliveries : Nat → String → List (Nat × String)
  subscribe : Nat → SubscriberID

/-- `(*NilEventHandler).Publish` does not do anything: no deliveries.
`(*NilEventHandler).Subscribe` makes a fresh unbuffered channel, closes it,
and returns it in a zero-flagged `SubscriberID`. -/
def NilEventHandler : EventHandlerModel :=
  { publishDeliveries := fun _ _ => []
  , subscribe := fun _ =>
      let ch : GoChan := { isNil := false, closed := false }
      { c := { ch with closed := true }, active := false } }

/-- An application-facing subscriber token `bluetooth.Subscriber[T]`. -/
structure EventSubscriber where
  c : GoChan
  subscribable : Bool
  deriving DecidableEq, Repr

/-- `bluetooth.Event.Subscribe` (api/bluetooth/events.go): makes a buffered
event channel, subscribes through the registered handler, and when the handle
is not active closes the event channel and skips starting the pump goroutine;
the returned token carries the event channel and the handle's active flag. -/
def Event.Subscribe (h : EventHandlerModel) (topic : Nat) : EventSubscriber :=
  let eventChan : GoChan := { isNil := false, closed := false }
  let id := h.subscribe topic
  if id.IsActive then
    { c := eventChan, subscribable := id.IsActive }
  else
    { c := { eventChan with closed := true }, subscribable := id.IsActive }

/-- `eventbus.Publish` through a registered handler: the deliveries are those
of the handler's publish. -/
def eventbusPublish (h : EventHandlerModel) (topic : Nat) (payload : String) :
    List (Nat × String) :=
  h.publishDeliveries topic payload

/-! ## Authorization orchestration, remote backend
(shim/internal/events auth events; shim/session.go EventAuthentication case)

`bluetooth.AuthTimeout`, the `SessionAuthorizer` interface and the
`commands.AuthenticationReply` constructor are not under src/; they are
modelled from the spec as a deadline handle, a record of the six capability
functions (returning `some` denial error or `none`), and a reply command
tagged with the auth-request ID, an encoded outcome and a reply deadline in
seconds. -/

/-- Modelled from the spec: a deadline handle passed into each capability
call. `bluetooth.NewAuthTimeout(d)` wraps the duration `d`. -/
structure AuthTimeout where
  duration : Int
  deriving DecidableEq, Repr

/-- `bluetooth.NewAuthTimeout`. -/
def NewAuthTimeout (d : Int) : AuthTimeout := { duration := d }

/-- The authentication event kinds (`events.AuthEventID` string constants). -/
def DisplayPinCode : String := "display-pincode"

/-- `events.DisplayPasskey`. -/
def DisplayPasskey : String := "display-passkey"

/-- `events.ConfirmPasskey`. -/
def ConfirmPasskey : String := "confirm-passkey"

/-- `events.AuthorizePairing`. -/
def AuthorizePairing : String := "authorize-pairing"

/-- `events.AuthorizeService`. -/
def AuthorizeService : String := "authorize-service"

/-- `events.AuthorizeTransfer`. -/
def AuthorizeTransfer : String := "authorize-transfer"

/-- `events.ReplyYesNo`. -/
def ReplyYesNo : String := "reply-yes-no"

/-- `events.ReplyWithInput`. -/
def ReplyWithInput : String := "reply-with-input"

/-- `bluetooth.FileTransferData` (transfer metadata), fields from its source. -/
structure FileTransferData where
  name : String := ""
  filetype : String := ""
  status : String := ""
  filename : String := ""
  address : MacAddress := ""
  size : Nat := 0
  transferred : Nat := 0
  deriving DecidableEq, Repr

/-- `events.AuthEventData`: an authentication event with its auth-request ID,
kind selector, deadline and per-kind payload fields. -/
structure AuthEventData where
  authId : Int := 0
  eventId : String := ""
  replyMethod : String := ""
  timeoutMs : Int := 0
  address : MacAddress := ""
  pincode : String := ""
  passkey : Nat := 0
  entered : Nat := 0
  uuid : String := ""
  fileTransfer : FileTransferData := {}
  deriving DecidableEq, Repr

/-- `events.AuthReply`: a reply method together with its reply value. -/
structure AuthReply where
  replyMethod : String
  reply : String
  deriving DecidableEq, Repr

/-- Modelled from the spec: the application's `bluetooth.SessionAuthorizer`
capability set; each capability returns `none` to accept or `some e` to deny. -/
structure SessionAuthorizer where
  displayPinCode : AuthTimeout → MacAddress → String → Option GoError
  displayPasskey : AuthTimeout → MacAddress → Nat → Nat → Option GoError
  confirmPasskey : AuthTimeout → MacAddress → Nat → Option GoError
  authorizePairing : AuthTimeout → MacAddress → Option GoError
  authorizeService : AuthTimeout → MacAddress → String → Option GoError
  authorizeTransfer : AuthTimeout → FileTransferData → Option GoError

/-- A record of which application capability was invoked, with its arguments. -/
inductive CapabilityCall where
  | displayPinCode (t : AuthTimeout) (address : MacAddress) (pincode : String)
  | displayPasskey (t : AuthTimeout) (address : MacAddress) (passkey : Nat) (entered : Nat)
  | confirmPasskey (t : AuthTimeout) (address : MacAddress) (passkey : Nat)
  | authorizePairing (t : AuthTimeout) (address : MacAddress)
  | authorizeService (t : AuthTimeout) (address : MacAddress) (uuid : String)
  | authorizeTransfer (t : AuthTimeout) (ft : FileTransferData)
  deriving DecidableEq, Repr

/-- The event kind a capability call answers. -/
def CapabilityCall.kind : CapabilityCall → String
  | .displayPinCode .. => DisplayPinCode
  | .displayPasskey .. => DisplayPasskey
  | .confirmPasskey .. => ConfirmPasskey
  | .authorizePairing .. => AuthorizePairing
  | .authorizeService .. => AuthorizeService
  | .authorizeTransfer .. => AuthorizeTransfer

/-- `(*AuthEventData).CallAuthorizer` (shim/internal/events auth events):
switches on the event-kind selector, invokes the matching capability with a
deadline handle built from the event's timeout, and yields the canned reply
for that kind together with the capability's verdict; an unknown kind yields
the method-call error without invoking anything, and a nil authorizer is
rejected. -/
def AuthEventData.CallAuthorizer (a : AuthEventData) (authorizer : Option SessionAuthorizer) :
    Except GoError (CapabilityCall × AuthReply × Option GoError) :=
  match authorizer with
  | none => .error (.generic "authorizer cannot be nil")
  | some auth =>
    let t := NewAuthTimeout a.timeoutMs
    if a.eventId = DisplayPinCode then
      .ok (.displayPinCode t a.address a.pincode,
           { replyMethod := ReplyWithInput, reply := a.pincode },
           auth.displayPinCode t a.address a.pincode)
    else if a.eventId = DisplayPasskey then
      .ok (.displayPasskey t a.address a.passkey a.entered,
           { replyMethod := ReplyWithInput, reply := toString a.passkey },
           auth.displayPasskey t a.address a.passkey a.entered)
    else if a.eventId = ConfirmPasskey then
      .ok (.confirmPasskey t a.address a.passkey,
           { replyMethod := ReplyYesNo, reply := "yes" },
           auth.confirmPasskey t a.address a.passkey)
    else if a.eventId = AuthorizePairing then
      .ok (.authorizePairing t a.address,
           { replyMethod := ReplyYesNo, reply := "yes" },
           auth.authorizePairing t a.address)
    else if a.eventId = AuthorizeService then
      .ok (.authorizeService t a.address a.uuid,
           { replyMethod := ReplyYesNo, reply := "yes" },
           auth.authorizeService t a.address a.uuid)
    else if a.eventId = AuthorizeTransfer then
      .ok (.authorizeTransfer t a.fileTransfer,
           { replyMethod := ReplyYesNo, reply := "yes" },
           auth.authorizeTransfer t a.fileTransfer)
    else
      .error .methodCall

/-- Modelled from the spec: the `commands.AuthenticationReply` command issued
by the session's authentication callback, tagged with the original
auth-request ID, the encoded outcome, and the reply round-trip deadline in
seconds. -/
structure AuthReplyCommand where
  authId : Int
  response : String
  timeoutSec : Int
  deriving DecidableEq, Repr

/-- The callback body in `handleListenerEvent`'s EventAuthentication case:
the encoded response is the reply value when the capability accepted and the
empty string otherwise, and the reply command is executed with the deadline
`TimeoutMs/1000 + 2` seconds (Go integer division truncates toward zero, Int.tdiv). -/
def authReplyCommand (authEvent : AuthEventData) (reply : AuthReply)
    (err : Option GoError) : AuthReplyCommand :=
  { authId := authEvent.authId
  , response := match err with
      | none => reply.reply
      | some _ => ""
  , timeoutSec := Int.tdiv authEvent.timeoutMs 1000 + 2 }

/-- `events.UnmarshalAuthEvent`: decodes the raw event payload into a map of
`AuthEventData` values but returns the zero-valued local `event` regardless of
what was decoded (the decoded map is never read). The serde decode itself is a
black box, so the step is parameterized by its outcome. -/
def UnmarshalAuthEvent (decode : Except GoError (List (String × AuthEventData))) :
    Except GoError AuthEventData :=
  let event : AuthEventData := {}
  match decode with
  | .error e => .error e
  | .ok _ => .ok event

/-- The EventAuthentication case of `(*ShimSession).handleListenerEvent`:
unmarshal the auth event (publishing an error event on failure), then call
the authorizer; a successful dispatch invokes one capability and issues one
`AuthenticationReply` command through the callback, while `CallAuthorizer`'s
returned error is discarded without invoking the callback. Returns the
published errors, the capability calls made and the commands issued. -/
def handleAuthEventCase (authorizer : Option SessionAuthorizer)
    (decode : Except GoError (List (String × AuthEventData))) :
    List GoError × List CapabilityCall × List AuthReplyCommand :=
  match UnmarshalAuthEvent decode with
  | .error e => ([e], [], [])
  | .ok authEvent =>
    match authEvent.CallAuthorizer authorizer with
    | .error _ => ([], [], [])
    | .ok (call, reply, err) => ([], [call], [authReplyCommand authEvent reply err])

/-! ## Authorization orchestration, local backend (linux OBEX agent)

`(*agent).Cancel` is written as `o.Cancel()` followed by returning nil: the
method invokes itself (the agent's own `Cancel` shadows any promoted method of
the embedded `fileTransfer`, which has none), so the recursion never reaches a
base case. It is embedded fuel-indexed: `agentCancel n` is the result of the
call when at most `n` nested self-calls are allowed, and `none` means the call
has not returned within that bound. -/

/-- `(*agent).Cancel`: the body is a self-call; no fuel bound suffices for it
to return. -/
def agentCancel : Nat → Option Unit
  | 0 => none
  | n + 1 => agentCancel n

/-- `obexSessionProperties` as read by `AuthorizePush`. -/
structure ObexSessionProperties where
  root : String := ""
  target : String := ""
  source : String := ""
  destination : MacAddress := ""
  deriving DecidableEq, Repr

/-- `bluetooth.TransferError` status constant. -/
def TransferError : String := "error"

/-- The OBEX agent state: the initialized flag and the configured
authorization timeout. -/
structure ObexAgentState where
  initialized : Bool
  authTimeout : Int
  deriving DecidableEq, Repr

/-- `(*agent).AuthorizePush`: returns early when the agent is not initialized
or a property fetch or validation fails; otherwise it starts a fresh deadline
(`o.ctx = bluetooth.NewAuthTimeout(o.authTimeout)`), defers `o.Cancel()`,
invokes the authorize-transfer capability, and must run the deferred cancel
before returning either the accepted path or the denial error. The D-Bus
property fetches are black boxes, so the step is parameterized by their
outcomes; `authorize` is the capability's verdict; `fuel` bounds the nested
calls the deferred `o.Cancel()` may make. `none` means the call has not
returned within the fuel bound. -/
def agentAuthorizePush (fuel : Nat) (st : ObexAgentState)
    (sessionProps : Except GoError ObexSessionProperties)
    (transferProps : Except GoError FileTransferData)
    (authorize : AuthTimeout → FileTransferData → Option GoError) :
    Option (String × Option GoError) :=
  if !st.initialized then some ("", none)
  else
    match sessionProps with
    | .error e => some ("", some e)
    | .ok sp =>
      match transferProps with
      | .error e => some ("", some e)
      | .ok tp =>
        if sp.root = "" then some ("", some (.generic "session property empty"))
        else if tp.status = TransferError then
          some ("", some (.generic "transfer property empty"))
        else
          let ctx := NewAuthTimeout st.authTimeout
          let verdict := authorize ctx { tp with address := sp.destination }
          let nativeReply : String × Option GoError :=
            match verdict with
            | some e => ("", some e)
            | none => (sp.root ++ "/" ++ tp.name, none)
          match agentCancel fuel with
          | none => none
          | some _ => some nativeReply

/-! ## Sample data for witnesses -/

/-- A sample adapter record. -/
def sampleAdapter : AdapterData :=
  { address := "AA:BB:CC:DD:EE:01", name := "hci0",
    adapterEventData := { address := "AA:BB:CC:DD:EE:01", powered := true } }

/-- A second sample adapter record. -/
def sampleAdapter2 : AdapterData :=
  { address := "AA:BB:CC:DD:EE:02", name := "hci1",
    adapterEventData := { address := "AA:BB:CC:DD:EE:02" } }

/-- A sample device owned by `sampleAdapter`. -/
def sampleDevice : DeviceData :=
  { address := "11:22:33:44:55:66", associatedAdapter := "AA:BB:CC:DD:EE:01",
    name := "headset", deviceEventData := { address := "11:22:33:44:55:66" } }

/-- A sample device owned by a different adapter. -/
def sampleDevice2 : DeviceData :=
  { address := "11:22:33:44:55:77", associatedAdapter := "AA:BB:CC:DD:EE:02",
    name := "keyboard", deviceEventData := { address := "11:22:33:44:55:77" } }

/-- A store whose populate barrier is armed once. -/
def armedStore : SessionStore :=
  { adapters := [(sampleAdapter.address, sampleAdapter)],
    devices := [(sampleDevice.address, sampleDevice)],
    initCount := 1, waiting := true }

/-- A store with the barrier disarmed, holding devices under two adapters. -/
def openStore : SessionStore :=
  { adapters := [(sampleAdapter.address, sampleAdapter), (sampleAdapter2.address, sampleAdapter2)],
    devices := [(sampleDevice.address, sampleDevice), (sampleDevice2.address, sampleDevice2)],
    initCount := 0, waiting := false }

/-! ## Claim theorems: session store -/

/-- C3: While the populate barrier is armed (an unmatched `WaitInitialize`,
i.e. a positive wait counter with the waiting flag set), none of the read or
update operations (`Adapter`, `Adapters`, `AdapterDevices`, `Device`,
`UpdateAdapter`, `UpdateDevice`) return, while the insert operations
(`AddAdapter`, `AddAdapters`, `AddDevice`, `AddDevices`) complete unblocked
and take effect; arming while already armed is a no-op, and `DoneInitialize`
decrements the counter, clears the flag, and, when it matches the single
arming, releases the blocked operations. -/
theorem sessionStore_populate_barrier (s : SessionStore) (addr daddr : MacAddress)
    (a : AdapterData) (d : DeviceData)
    (f : AdapterData → Except GoError AdapterData)
    (g : DeviceData → Except GoError DeviceData)
    (hcount : 0 < s.initCount) (hflag : s.waiting = true) :
    s.Adapter addr = none ∧ s.Adapters = none ∧ s.AdapterDevices addr = none ∧
    s.Device daddr = none ∧ s.UpdateAdapter addr f = none ∧ s.UpdateDevice daddr g = none ∧
    mapLoad a.address (s.AddAdapter a).adapters = some a ∧
    mapLoad a.address (s.AddAdapters [a]).adapters = some a ∧
    mapLoad d.address (s.AddDevice d).devices = some d ∧
    mapLoad d.address (s.AddDevices [d]).devices = some d ∧
    s.WaitInitialize = s ∧
    (∃ s', s.DoneInitialize = some s' ∧ s'.waiting = false ∧
      s'.initCount = s.initCount - 1 ∧
      (s.initCount = 1 →
        s'.Adapters = some (s'.adapters.map Prod.snd) ∧
        s'.Adapter addr ≠ none ∧ s'.UpdateAdapter addr f ≠ none)) := by
  obtain ⟨n, hn⟩ : ∃ n, s.initCount = n + 1 :=
    ⟨s.initCount - 1, (Nat.succ_pred_eq_of_pos hcount).symm⟩
  refine ⟨?_, ?_, ?_, ?_, ?_, ?_, ?_, ?_, ?_, ?_, ?_, ?_⟩
  · simp [SessionStore.Adapter, hcount]
  · simp [SessionStore.Adapters, hcount]
  · simp [SessionStore.AdapterDevices, hcount]
  · simp [SessionStore.Device, hcount]
  · simp [SessionStore.UpdateAdapter, hcount]
  · simp [SessionStore.UpdateDevice, hcount]
  · simp [SessionStore.AddAdapter, mapLoad_store_self]
  · simp [SessionStore.AddAdapters, SessionStore.AddAdapter, mapLoad_store_self]
  · simp [SessionStore.AddDevice, mapLoad_store_self]
  · simp [SessionStore.AddDevices, SessionStore.AddDevice, mapLoad_store_self]
  · simp [SessionStore.WaitInitialize, hflag]
  · refine ⟨{ s with initCount := n, waiting := false }, ?_, rfl, ?_, ?_⟩
    · simp [SessionStore.DoneInitialize, hn]
    · simp [hn]
    · intro h1
      have hn0 : n = 0 := by omega
      subst hn0
      refine ⟨?_, ?_, ?_⟩
      · simp [SessionStore.Adapters]
      · simp [SessionStore.Adapter]
      · simp [SessionStore.UpdateAdapter]

/-- Witness for C3 at a concrete armed store. -/
theorem sessionStore_populate_barrier_witness :
    0 < armedStore.initCount ∧ armedStore.waiting = true ∧
    armedStore.Adapter "AA:BB:CC:DD:EE:01" = none ∧
    mapLoad sampleAdapter2.address (armedStore.AddAdapter sampleAdapter2).adapters =
      some sampleAdapter2 := by
  refine ⟨by decide, rfl, ?_, ?_⟩
  · exact (sessionStore_populate_barrier armedStore "AA:BB:CC:DD:EE:01" "" sampleAdapter2
      sampleDevice2 (fun x => Except.ok x) (fun x => Except.ok x) (by decide) rfl).1
  · exact (sessionStore_populate_barrier armedStore "AA:BB:CC:DD:EE:01" "" sampleAdapter2
      sampleDevice2 (fun x => Except.ok x) (fun x => Except.ok x) (by decide)
      rfl).2.2.2.2.2.2.1

/-- C5: With the barrier disarmed, `UpdateAdapter`/`UpdateDevice` load the
current record, apply the merge function, store the merged record only when
the merge function succeeded, and return the record's event-data sub-record;
when the merge function fails or the address is absent, the stored collections
are left unchanged and an error (not-found for an absent key) is returned with
zero-valued event data. -/
theorem sessionStore_update_merge (s : SessionStore) (addr daddr : MacAddress)
    (f : AdapterData → Except GoError AdapterData)
    (g : DeviceData → Except GoError DeviceData)
    (h0 : s.initCount = 0) :
    (mapLoad addr s.adapters = none →
      s.UpdateAdapter addr f = some (s, {}, some .adapterNotFound)) ∧
    (∀ a e, mapLoad addr s.adapters = some a → f a = .error e →
      s.UpdateAdapter addr f = some (s, {}, some e)) ∧
    (∀ a m, mapLoad addr s.adapters = some a → f a = .ok m →
      ∃ s', s.UpdateAdapter addr f = some (s', m.adapterEventData, none) ∧
        mapLoad addr s'.adapters = some m ∧
        (∀ k, k ≠ addr → mapLoad k s'.adapters = mapLoad k s.adapters) ∧
        s'.devices = s.devices) ∧
    (mapLoad daddr s.devices = none →
      s.UpdateDevice daddr g = some (s, {}, some .deviceNotFound)) ∧
    (∀ d e, mapLoad daddr s.devices = some d → g d = .error e →
      s.UpdateDevice daddr g = some (s, {}, some e)) ∧
    (∀ d m, mapLoad daddr s.devices = some d → g d = .ok m →
      ∃ s', s.UpdateDevice daddr g = some (s', m.deviceEventData, none) ∧
        mapLoad daddr s'.devices = some m ∧
        (∀ k, k ≠ daddr → mapLoad k s'.devices = mapLoad k s.devices) ∧
        s'.adapters = s.adapters) := by
  have hng : ¬0 < s.initCount := by omega
  refine ⟨?_, ?_, ?_, ?_, ?_, ?_⟩
  · intro habs
    simp [SessionStore.UpdateAdapter, hng, habs]
  · intro a e hload herr
    simp [SessionStore.UpdateAdapter, hng, hload, herr]
  · intro a m hload hok
    refine ⟨{ s with adapters := mapStore addr m s.adapters }, ?_, ?_, ?_, rfl⟩
    · simp [SessionStore.UpdateAdapter, hng, hload, hok]
    · simp [mapLoad_store_self]
    · intro k hk
      exact mapLoad_store_other m s.adapters hk
  · intro habs
    simp [SessionStore.UpdateDevice, hng, habs]
  · intro d e hload herr
    simp [SessionStore.UpdateDevice, hng, hload, herr]
  · intro d m hload hok
    refine ⟨{ s with devices := mapStore daddr m s.devices }, ?_, ?_, ?_, rfl⟩
    · simp [SessionStore.UpdateDevice, hng, hload, hok]
    · simp [mapLoad_store_self]
    · intro k hk
      exact mapLoad_store_other m s.devices hk

/-- Witness for C5 at a concrete disarmed store: an absent adapter key yields
not-found with zero event data and an unchanged store, and a successful merge
stores the merged record. -/
theorem sessionStore_update_merge_witness :
    openStore.initCount = 0 ∧
    (openStore.UpdateAdapter "FF:FF:FF:FF:FF:FF" (fun x => Except.ok x) =
      some (openStore, {}, some .adapterNotFound)) ∧
    (∃ s', openStore.UpdateAdapter "AA:BB:CC:DD:EE:01"
        (fun x => Except.ok { x with name := "renamed" }) =
        some (s', { sampleAdapter with name := "renamed" }.adapterEventData, none) ∧
      mapLoad "AA:BB:CC:DD:EE:01" s'.adapters = some { sampleAdapter with name := "renamed" } ∧
      (∀ k, k ≠ "AA:BB:CC:DD:EE:01" →
        mapLoad k s'.adapters = mapLoad k openStore.adapters) ∧
      s'.devices = openStore.devices) := by
  refine ⟨rfl, ?_, ?_⟩
  · exact (sessionStore_update_merge openStore "FF:FF:FF:FF:FF:FF" ""
      (fun x => Except.ok x) (fun x => Except.ok x) rfl).1 (by decide)
  · exact (sessionStore_update_merge openStore "AA:BB:CC:DD:EE:01" ""
      (fun x => Except.ok { x with name := "renamed" }) (fun x => Except.ok x) rfl).2.2.1
      sampleAdapter { sampleAdapter with name := "renamed" } (by decide) rfl

/-- C9: With the barrier disarmed, `AdapterDevices` returns exactly the device
records whose associated-adapter field equals the requested address when the
adapter key is present, and the adapter-not-found error with no device list
when the adapter key is absent. -/
theorem sessionStore_adapterDevices (s : SessionStore) (addr : MacAddress)
    (h0 : s.initCount = 0) :
    (∀ a, mapLoad addr s.adapters = some a →
      ∃ l, s.AdapterDevices addr = some (.ok l) ∧
        ∀ d, d ∈ l ↔ d ∈ s.devices.map Prod.snd ∧ d.associatedAdapter = addr) ∧
    (mapLoad addr s.adapters = none →
      s.AdapterDevices addr = some (.error .adapterNotFound)) := by
  have hng : ¬0 < s.initCount := by omega
  constructor
  · intro a hload
    refine ⟨(s.devices.map Prod.snd).filter
      (fun d => decide (d.associatedAdapter = addr)), ?_, ?_⟩
    · simp [SessionStore.AdapterDevices, hng, hload]
    · intro d
      simp [List.mem_filter]
  · intro habs
    simp [SessionStore.AdapterDevices, hng, habs]

/-- Witness for C9 at a concrete store holding devices under two adapters. -/
theorem sessionStore_adapterDevices_witness :
    openStore.initCount = 0 ∧
    (∃ l, openStore.AdapterDevices "AA:BB:CC:DD:EE:01" = some (.ok l) ∧
      ∀ d, d ∈ l ↔ d ∈ openStore.devices.map Prod.snd ∧
        d.associatedAdapter = "AA:BB:CC:DD:EE:01") ∧
    openStore.AdapterDevices "FF:FF:FF:FF:FF:FF" = some (.error .adapterNotFound) := by
  refine ⟨rfl, ?_, ?_⟩
  · exact (sessionStore_adapterDevices openStore "AA:BB:CC:DD:EE:01" rfl).1
      sampleAdapter (by decide)
  · exact (sessionStore_adapterDevices openStore "FF:FF:FF:FF:FF:FF" rfl).2 (by decide)

/-- C10: `DoneInitialize` on a store whose populate barrier is not armed
(wait-group counter zero) does not return normally: the wait-group counter is
driven negative, which panics; with the barrier armed it returns, decrementing
the counter and clearing the waiting flag. -/
theorem sessionStore_doneInitialize_unarmed_panics (s : SessionStore) :
    (s.initCount = 0 → s.DoneInitialize = none) ∧
    (0 < s.initCount → ∃ s', s.DoneInitialize = some s' ∧
      s'.initCount = s.initCount - 1 ∧ s'.waiting = false) := by
  constructor
  · intro h0
    simp [SessionStore.DoneInitialize, h0]
  · intro hpos
    obtain ⟨n, hn⟩ : ∃ n, s.initCount = n + 1 :=
      ⟨s.initCount - 1, (Nat.succ_pred_eq_of_pos hpos).symm⟩
    refine ⟨{ s with initCount := n, waiting := false }, ?_, ?_, rfl⟩
    · simp [SessionStore.DoneInitialize, hn]
    · simp [hn]

/-- Witness for C10: a fresh store panics on `DoneInitialize`, an armed store
does not. -/
theorem sessionStore_doneInitialize_unarmed_panics_witness :
    NewSessionStore.DoneInitialize = none ∧
    (∃ s', armedStore.DoneInitialize = some s' ∧
      s'.initCount = armedStore.initCount - 1 ∧ s'.waiting = false) := by
  constructor
  · exact (sessionStore_doneInitialize_unarmed_panics NewSessionStore).1 rfl
  · exact (sessionStore_doneInitialize_unarmed_panics armedStore).2 (by decide)

/-! ## Claim theorems: shim transport correlation -/

theorem mem_keys_mapDelete {κ α : Type} [DecidableEq κ] {k k' : κ} {m : List (κ × α)} :
    k ∈ (mapDelete k' m).map Prod.fst ↔ k ∈ m.map Prod.fst ∧ k ≠ k' := by
  simp only [mapDelete, List.mem_map, List.mem_filter]
  constructor
  · rintro ⟨p, ⟨hp, hq⟩, rfl⟩
    exact ⟨⟨p, hp, rfl⟩, by simpa using hq⟩
  · rintro ⟨⟨p, hp, rfl⟩, hne⟩
    exact ⟨p, ⟨hp, by simpa using hne⟩, rfl⟩

theorem processReplies_delivered_ids (m : List (Int × Nat)) (rs : List CommandResponse) :
    ((ShimSession.processReplies m rs).2.map (fun p => p.1)).Nodup ∧
    ∀ p ∈ (ShimSession.processReplies m rs).2, p.1 ∈ m.map Prod.fst := by
  induction rs generalizing m with
  | nil => simp [ShimSession.processReplies]
  | cons r rs ih =>
    cases h : mapLoad r.requestId m with
    | none =>
      simp only [ShimSession.processReplies, h]
      exact ih m
    | some replyChan =>
      have hsub := (ih (mapDelete r.requestId m)).2
      have hnd := (ih (mapDelete r.requestId m)).1
      simp only [ShimSession.processReplies, h, List.map_cons, List.nodup_cons]
      refine ⟨⟨?_, hnd⟩, ?_⟩
      · intro hmem
        obtain ⟨p, hp, hpk⟩ := List.mem_map.mp hmem
        have := hsub p hp
        rw [hpk] at this
        exact (mem_keys_mapDelete.mp this).2 rfl
      · intro p hp
        rcases List.mem_cons.mp hp with hhd | htl
        · rw [hhd]
          exact mem_keys_of_mapLoad_some h
        · exact (mem_keys_mapDelete.mp (hsub p htl)).1

/-- A scanned line carrying a well-formed reply frame. -/
def replyLine (r : CommandResponse) : ScannedLine :=
  { scanErr := none, decoded := .ok { commandResponse := r, serverEvent := {} } }

/-- C2: A reply frame whose request ID is registered is delivered exactly to
that ID's reply channel and the table entry is removed upon delivery (leaving
every other entry unchanged); a reply whose request ID has no table entry is
dropped silently, leaving the table unchanged; and over any sequence of reply
frames, at most one delivery ever happens per request ID, each to an ID that
was registered. -/
theorem shim_reply_delivered_at_most_once (m : List (Int × Nat)) (r : CommandResponse)
    (rs : List CommandResponse) :
    (∀ ch, mapLoad r.requestId m = some ch →
      (ShimSession.listenStep m (replyLine r)).delivered = [(ch, r)] ∧
      mapLoad r.requestId (ShimSession.listenStep m (replyLine r)).requestMap = none ∧
      (∀ k, k ≠ r.requestId →
        mapLoad k (ShimSession.listenStep m (replyLine r)).requestMap = mapLoad k m)) ∧
    (mapLoad r.requestId m = none →
      (ShimSession.listenStep m (replyLine r)).delivered = [] ∧
      (ShimSession.listenStep m (replyLine r)).requestMap = m) ∧
    ((ShimSession.processReplies m rs).2.map (fun p => p.1)).Nodup ∧
    (∀ p ∈ (ShimSession.processReplies m rs).2, p.1 ∈ m.map Prod.fst) := by
  refine ⟨?_, ?_, (processReplies_delivered_ids m rs).1, (processReplies_delivered_ids m rs).2⟩
  · intro ch hload
    refine ⟨?_, ?_, ?_⟩
    · simp [ShimSession.listenStep, replyLine, hload]
    · simp [ShimSession.listenStep, replyLine, hload, mapLoad_delete_self]
    · intro k hk
      simp only [ShimSession.listenStep, replyLine, hload]
      exact mapLoad_delete_other m hk
  · intro hnone
    constructor
    · simp [ShimSession.listenStep, replyLine, hnone]
    · simp [ShimSession.listenStep, replyLine, hnone]

/-- Witness for C2 on a concrete two-entry table: the reply for ID 1 is
delivered to its channel and removed, ID 2 stays, and a reply for the
unregistered ID 7 is dropped. -/
theorem shim_reply_delivered_at_most_once_witness :
    ((ShimSession.listenStep [(1, 11), (2, 22)]
        (replyLine { requestId := 1, status := "ok" })).delivered =
      [(11, { requestId := 1, status := "ok" })]) ∧
    (mapLoad 1 (ShimSession.listenStep [(1, 11), (2, 22)]
        (replyLine { requestId := 1, status := "ok" })).requestMap = none) ∧
    (mapLoad 2 (ShimSession.listenStep [(1, 11), (2, 22)]
        (replyLine { requestId := 1, status := "ok" })).requestMap = mapLoad 2 [(1, 11), (2, 22)]) ∧
    ((ShimSession.listenStep [(1, 11), (2, 22)]
        (replyLine { requestId := 7 })).requestMap = [(1, 11), (2, 22)]) := by
  refine ⟨?_, ?_, ?_, ?_⟩
  · exact ((shim_reply_delivered_at_most_once [(1, 11), (2, 22)]
      { requestId := 1, status := "ok" } []).1 11 (by decide)).1
  · exact ((shim_reply_delivered_at_most_once [(1, 11), (2, 22)]
      { requestId := 1, status := "ok" } []).1 11 (by decide)).2.1
  · exact ((shim_reply_delivered_at_most_once [(1, 11), (2, 22)]
      { requestId := 1, status := "ok" } []).1 11 (by decide)).2.2 2 (by decide)
  · exact ((shim_reply_delivered_at_most_once [(1, 11), (2, 22)]
      { requestId := 7 } []).2.1 (by decide)).2

/-- The executor only ever registers request IDs of at least 1 (the counter
starts at zero and is incremented before the store), so a zero-valued decoded
frame can never match a pending request. -/
theorem executor_requestMap_keys_pos (st : ShimState) (params : List String)
    (h : ∀ p ∈ st.requestMap, 1 ≤ p.1) :
    ∀ p ∈ (ShimSession.executor st params).1.requestMap, 1 ≤ p.1 := by
  by_cases hc : st.sessionClosed
  · simp only [ShimSession.executor, hc, if_true]
    exact h
  · simp only [ShimSession.executor, hc, if_false, mapStore]
    intro p hp
    rcases List.mem_cons.mp hp with hhd | htl
    · rw [hhd]
      simp
    · exact h p (List.mem_of_mem_filter htl)

/-- C6: A line that fails to decode as a structured message only publishes the
error on the error topic and is otherwise skipped — no event is dispatched, no
reply is delivered, the pending-request table is untouched, and the listener
continues (provided every registered request ID is at least 1, which the
executor guarantees); a connection-level scanner failure publishes the error
and stops the listener, triggering session teardown. -/
theorem shim_listener_malformed_line_skipped (m : List (Int × Nat)) (e : String)
    (dec : Except String ListenerMessage) :
    ((∀ p ∈ m, 1 ≤ p.1) →
      ShimSession.listenStep m { scanErr := none, decoded := .error e } =
        { publishedErrors := [e], dispatched := [], delivered := [],
          stopped := false, requestMap := m }) ∧
    (ShimSession.listenStep m { scanErr := some e, decoded := dec } =
      { publishedErrors := [e], dispatched := [], delivered := [],
        stopped := true, requestMap := m }) := by
  constructor
  · intro hkeys
    have hzero : mapLoad (0 : Int) m = none := by
      apply mapLoad_none_of_all_ne
      intro p hp
      have := hkeys p hp
      omega
    simp [ShimSession.listenStep, hzero]
  · simp [ShimSession.listenStep]

/-- A sample malformed line (decode failure). -/
def badLine : ScannedLine := { scanErr := none, decoded := .error "bad json" }

/-- A sample line observed together with a connection-level scanner error. -/
def resetLine : ScannedLine := { scanErr := some "connection reset", decoded := .ok {} }

/-- Witness for C6 on a concrete table with one pending request. -/
theorem shim_listener_malformed_line_skipped_witness :
    (ShimSession.listenStep [(1, 11)] badLine =
      { publishedErrors := ["bad json"], dispatched := [], delivered := [],
        stopped := false, requestMap := [(1, 11)] }) ∧
    (ShimSession.listenStep [(1, 11)] resetLine =
      { publishedErrors := ["connection reset"], dispatched := [], delivered := [],
        stopped := true, requestMap := [(1, 11)] }) := by
  constructor
  · exact (shim_listener_malformed_line_skipped [(1, 11)] "bad json" (.ok {})).1 (by decide)
  · exact (shim_listener_malformed_line_skipped [(1, 11)] "connection reset" (.ok {})).2

/-- C7: After the session has been stopped (`sessionClosed` set), every
subsequent executor call returns the session-not-exist error immediately, with
the session state untouched: nothing is written to the connection and no new
request ID is registered; the obex precondition check likewise reports
session-not-exist. -/
theorem shim_executor_after_stop (st : ShimState) (params : List String)
    (h : st.sessionClosed = true) :
    (ShimSession.executor st params).2 = .error .sessionNotExist ∧
    (ShimSession.executor st params).1 = st ∧
    (ShimSession.executor st params).1.written = st.written ∧
    (ShimSession.executor st params).1.requestMap = st.requestMap ∧
    obexFileTransfer.check st = some .sessionNotExist := by
  refine ⟨?_, ?_, ?_, ?_, ?_⟩ <;>
    simp [ShimSession.executor, obexFileTransfer.check, h]

/-- Witness for C7 at a concrete closed session state. -/
theorem shim_executor_after_stop_witness :
    (ShimSession.executor
      { sessionClosed := true, idCounter := 3, requestMap := [(2, 22)],
        written := [], featureSendFile := true } ["adapters"]).2 =
      .error .sessionNotExist ∧
    (ShimSession.executor
      { sessionClosed := true, idCounter := 3, requestMap := [(2, 22)],
        written := [], featureSendFile := true } ["adapters"]).1 =
      { sessionClosed := true, idCounter := 3, requestMap := [(2, 22)],
        written := [], featureSendFile := true } := by
  constructor
  · exact (shim_executor_after_stop
      { sessionClosed := true, idCounter := 3, requestMap := [(2, 22)],
        written := [], featureSendFile := true } ["adapters"] rfl).1
  · exact (shim_executor_after_stop
      { sessionClosed := true, idCounter := 3, requestMap := [(2, 22)],
        written := [], featureSendFile := true } ["adapters"] rfl).2.1

/-! ## Claim theorems: event bus and authorization -/

/-- C8: With the nil event handler registered, a publish on any topic with any
payload delivers nothing (and returns, being a total function), and a
subscribe on any topic returns a token whose channel is non-nil and already
closed and whose subscribable flag is false. -/
theorem eventbus_nil_handler_disabled (topic : Nat) (payload : String) :
    eventbusPublish NilEventHandler topic payload = [] ∧
    (Event.Subscribe NilEventHandler topic).c.isNil = false ∧
    (Event.Subscribe NilEventHandler topic).c.closed = true ∧
    (Event.Subscribe NilEventHandler topic).subscribable = false :=
  ⟨rfl, rfl, rfl, rfl⟩

/-- C1 (refuted): no authentication event received by the shim session ever
invokes a capability or issues an `AuthenticationReply` command, because
`UnmarshalAuthEvent` discards the decoded map and returns the zero-valued
event, whose empty kind selector matches none of the six cases, and the
resulting method-call error is discarded by `handleListenerEvent` without
running the reply callback. -/
theorem shim_auth_event_never_dispatched (authorizer : Option SessionAuthorizer)
    (decode : Except GoError (List (String × AuthEventData))) :
    (handleAuthEventCase authorizer decode).2.1 = [] ∧
    (handleAuthEventCase authorizer decode).2.2 = [] := by
  cases decode with
  | error e => exact ⟨rfl, rfl⟩
  | ok l =>
    cases authorizer with
    | none => exact ⟨rfl, rfl⟩
    | some auth =>
      have hz : ({} : AuthEventData).CallAuthorizer (some auth) = .error .methodCall := by
        simp only [AuthEventData.CallAuthorizer, DisplayPinCode, DisplayPasskey,
          ConfirmPasskey, AuthorizePairing, AuthorizeService, AuthorizeTransfer]
        rw [if_neg (by decide), if_neg (by decide), if_neg (by decide),
          if_neg (by decide), if_neg (by decide), if_neg (by decide)]
      constructor <;>
        simp [handleAuthEventCase, UnmarshalAuthEvent, hz]

/-- C4 (refuted): the OBEX agent's `Cancel` never completes within any bound
on nested self-calls, so `AuthorizePush`, whose deferred cancel must run
before the native reply is returned, never returns once it reaches the
authorize-transfer step — whether the capability accepts or denies. -/
theorem obexAgent_cancel_diverges (fuel : Nat) (st : ObexAgentState)
    (sp : ObexSessionProperties) (tp : FileTransferData)
    (authorize : AuthTimeout → FileTransferData → Option GoError)
    (hinit : st.initialized = true) (hroot : sp.root ≠ "")
    (hstatus : tp.status ≠ TransferError) :
    agentCancel fuel = none ∧
    agentAuthorizePush fuel st (.ok sp) (.ok tp) authorize = none := by
  have hc : agentCancel fuel = none := by
    induction fuel with
    | zero => rfl
    | succ n ih => exact ih
  refine ⟨hc, ?_⟩
  simp [agentAuthorizePush, hinit, hroot, hstatus, hc]

/-- Witness for C4: a concrete accepted push through an initialized agent
never returns, at a sample fuel bound of 1000 nested calls. -/
theorem obexAgent_cancel_diverges_witness :
    agentCancel 1000 = none ∧
    agentAuthorizePush 1000 { initialized := true, authTimeout := 10000 }
      (.ok { root := "/home/user/downloads", destination := "11:22:33:44:55:66" })
      (.ok { name := "photo.jpg", status := "active" })
      (fun _ _ => none) = none := by
  constructor
  · exact (obexAgent_cancel_diverges 1000 { initialized := true, authTimeout := 10000 }
      { root := "/home/user/downloads", destination := "11:22:33:44:55:66" }
      { name := "photo.jpg", status := "active" } (fun _ _ => none)
      rfl (by decide) (by decide)).1
  · exact (obexAgent_cancel_diverges 1000 { initialized := true, authTimeout := 10000 }
      { root := "/home/user/downloads", destination := "11:22:33:44:55:66" }
      { name := "photo.jpg", status := "active" } (fun _ _ => none)
      rfl (by decide) (by decide)).2
